import Mathlib

/-!
Shallow embedding of the Inventory Ledger & Stock Reservation Engine of the
medicine-finder backend (medical-shop service).  The definitions below are
translated from the Mongoose `Inventory` model (schema, instance methods,
pre-save middleware), the inventory controller endpoints, the zod request
validators wired on the shop routes, and the order-lifecycle event handlers.

Modelling conventions:
- Machine numbers are `Int` (quantities are plain JS numbers; no overflow is
  relevant at the scales involved).
- A Mongoose `save()` is modelled as `save : Lot -> Option Lot`: Mongoose runs
  schema validation first (validation is registered as the first pre-save
  hook, so it sees the document *before* the user pre-save hook runs), then
  the user pre-save hook which recomputes `availableQuantity`, then writes.
  `none` models a rejected save: the persisted document is unchanged.
- `findByIdAndUpdate` (used by the update endpoint) runs *update validators on
  the set paths only* and does not run the pre-save hook.
- Fields no claim refers to (pricing, supplier, location, unit,
  manufacturingDate inside the stored document, timestamps other than the ones
  used) are omitted from the `Lot` structure; the date comparison checks of
  the zod create validator are kept on the create input.
-/

namespace MedInv

/-- One entry of the `stockMovements` subdocument array of the Inventory
schema.  `performedBy` is kept as the raw string sent by the caller; schema
validation requires it to cast to an ObjectId. -/
structure Movement where
  type : String
  quantity : Int
  reason : String
  reference : Option String
  performedBy : String
  timestamp : Int
  notes : String
deriving Repr, DecidableEq

/-- The `alerts` subdocument (only the fields the claims touch). -/
structure Alerts where
  lowStockThreshold : Int
  expiryAlertDays : Int
deriving Repr, DecidableEq

/-- An Inventory document (one lot).  `expiryDate`, `lastStockUpdate` and
movement timestamps are integer clock values. -/
structure Lot where
  shopId : Nat
  medicineId : Nat
  batchNumber : String
  quantity : Int
  reservedQuantity : Int
  availableQuantity : Int
  status : String
  alerts : Alerts
  expiryDate : Int
  stockMovements : List Movement
  lastStockUpdate : Int
  createdBy : String
deriving Repr, DecidableEq

/-- Movement `type` enum of the schema. -/
def movementTypeEnum : List String := ["in", "out", "adjustment", "return"]

/-- Movement `reason` enum of the schema. -/
def movementReasonEnum : List String :=
  ["purchase", "sale", "damage", "expiry", "correction", "transfer"]

/-- The `status` enum of the schema.  Note: it does not contain
"out-of-stock", although `addStockMovement` assigns that value. -/
def statusEnum : List String := ["active", "expired", "damaged", "returned", "low-stock"]

/-- A string casts to a Mongoose ObjectId iff it is 24 hex characters. -/
def isValidObjectId (s : String) : Bool :=
  s.length == 24 && s.toList.all (fun c => c.isDigit || "abcdefABCDEF".toList.contains c)

/-- Schema validation of one movement subdocument: `type` and `reason` must be
in their enums and `performedBy` must cast to an ObjectId. -/
def validMovement (m : Movement) : Bool :=
  movementTypeEnum.contains m.type
    && movementReasonEnum.contains m.reason
    && isValidObjectId m.performedBy

/-- Full-document schema validation run by Mongoose on `save`: the `min: 0`
validators on the three quantity fields and the alert fields, the `status`
enum, `required` on `batchNumber` and `createdBy`, and validation of every
movement subdocument. -/
def validLot (l : Lot) : Bool :=
  decide (0 ≤ l.quantity)
    && decide (0 ≤ l.reservedQuantity)
    && decide (0 ≤ l.availableQuantity)
    && statusEnum.contains l.status
    && decide (0 ≤ l.alerts.lowStockThreshold)
    && decide (0 ≤ l.alerts.expiryAlertDays)
    && (l.batchNumber != "")
    && l.stockMovements.all validMovement
    && isValidObjectId l.createdBy

/-- The pre-save middleware: recompute `availableQuantity`. -/
def preSave (l : Lot) : Lot :=
  { l with availableQuantity := max 0 (l.quantity - l.reservedQuantity) }

/-- Mongoose `save()`: validate (before the user pre-save hook), then run the
pre-save hook, then write.  `none` = validation error, nothing persisted. -/
def save (l : Lot) : Option Lot :=
  if validLot l then some (preSave l) else none

/-- Instance method `isLowStock`. -/
def isLowStock (l : Lot) : Bool :=
  decide (l.availableQuantity ≤ l.alerts.lowStockThreshold)

/-- Instance method `isExpired` (`new Date() > this.expiryDate`). -/
def isExpired (l : Lot) (now : Int) : Bool :=
  decide (l.expiryDate < now)

/-- The status written by `addStockMovement` after updating quantities.  Note
the "out-of-stock" branch assigns a value outside the schema status enum. -/
def movementStatus (l : Lot) (now : Int) : String :=
  if isExpired l now then "expired"
  else if l.quantity == 0 then "out-of-stock"
  else if isLowStock l then "low-stock"
  else "active"

/-- The quantity update of `addStockMovement`: "in" adds, "out" subtracts,
"adjustment" sets, and any other type (in particular "return") leaves the
on-hand quantity unchanged, since the method has no branch for it. -/
def movedQty (l : Lot) (type : String) (qty : Int) : Int :=
  if type == "in" then l.quantity + qty
  else if type == "out" then l.quantity - qty
  else if type == "adjustment" then qty
  else l.quantity

/-- Instance method `addStockMovement(type, quantity, reason, performedBy,
reference, notes)`: push the movement, update `quantity` by `type` (no branch
for "return"), recompute `availableQuantity`, derive `status`, then `save`. -/
def addStockMovement (l : Lot) (type : String) (qty : Int)
    (reason performedBy : String) (reference : Option String) (notes : String)
    (now : Int) : Option Lot :=
  let m : Movement :=
    { type := type, quantity := qty, reason := reason, reference := reference,
      performedBy := performedBy, timestamp := now, notes := notes }
  let newQty : Int := movedQty l type qty
  let l3 : Lot :=
    { l with stockMovements := l.stockMovements ++ [m],
             quantity := newQty,
             availableQuantity := max 0 (newQty - l.reservedQuantity),
             lastStockUpdate := now }
  let l4 : Lot := { l3 with status := movementStatus l3 now }
  save l4

/-- Handler for order.placed, restricted to one line item whose lot exists, acting
on the persisted lot.  Each Mongoose `save` is a commit point: a failed save
leaves the previously persisted state in place. -/
def handleOrderPlacedItem (l : Lot) (qty : Int) (userId orderId : String)
    (now : Int) : Lot :=
  if l.availableQuantity < qty then l
  else
    match save { l with reservedQuantity := l.reservedQuantity + qty } with
    | none => l
    | some l1 =>
      match addStockMovement l1 "out" qty "order_reservation" userId
          (some orderId) ("Reserved for order " ++ orderId) now with
      | none => l1
      | some l2 => l2

/-- Handler for order.confirmed, one line item, persisted-state semantics.  The
handler decrements both quantities, recomputes `availableQuantity` from the
decremented fields, saves, then records the confirmation movement. -/
def handleOrderConfirmedItem (l : Lot) (qty : Int) (userId orderId : String)
    (now : Int) : Lot :=
  match save { l with
      reservedQuantity := l.reservedQuantity - qty,
      quantity := l.quantity - qty,
      availableQuantity :=
        max 0 ((l.quantity - qty) - (l.reservedQuantity - qty)) } with
  | none => l
  | some l1 =>
    match addStockMovement l1 "out" qty "order_confirmed" userId
        (some orderId) ("Sold in order " ++ orderId) now with
    | none => l1
    | some l2 => l2

/-- Handler for order.cancelled, one line item, persisted-state semantics.  The
movement call passes the literal string "system" as `performedBy`. -/
def handleOrderCancelledItem (l : Lot) (qty : Int) (orderId : String)
    (now : Int) : Lot :=
  match save { l with
      reservedQuantity := max 0 (l.reservedQuantity - qty),
      availableQuantity :=
        max 0 (l.quantity - max 0 (l.reservedQuantity - qty)) } with
  | none => l
  | some l1 =>
    match addStockMovement l1 "adjustment" l1.quantity "order_cancelled"
        "system" (some orderId)
        ("Reservation released for cancelled order " ++ orderId) now with
    | none => l1
    | some l2 => l2

/-- The body of a PUT update request as it reaches `findByIdAndUpdate`.  The
zod `updateInventorySchema` parses the body but the parse result is discarded
and unknown keys are not rejected, so a caller may also send
`reservedQuantity` and `availableQuantity` directly. -/
structure UpdateBody where
  quantity : Option Int
  reservedQuantity : Option Int
  availableQuantity : Option Int
  status : Option String
  lowStockThreshold : Option Int
deriving Repr, DecidableEq

/-- Status values the zod update validator accepts. -/
def zodUpdateStatusEnum : List String := ["active", "expired", "damaged", "returned"]

/-- The zod `updateInventorySchema` boundary check on the declared keys
(unknown keys pass untouched). -/
def updateBodyZodValid (b : UpdateBody) : Bool :=
  b.quantity.all (fun q => decide (0 ≤ q))
    && b.status.all (fun s => zodUpdateStatusEnum.contains s)
    && b.lowStockThreshold.all (fun t => decide (0 ≤ t))

/-- Mongoose update validators (`runValidators: true`): the validators of the
paths being set, and only those. -/
def updateValidatorsOk (b : UpdateBody) : Bool :=
  b.quantity.all (fun q => decide (0 ≤ q))
    && b.reservedQuantity.all (fun q => decide (0 ≤ q))
    && b.availableQuantity.all (fun q => decide (0 ≤ q))
    && b.status.all (fun s => statusEnum.contains s)
    && b.lowStockThreshold.all (fun t => decide (0 ≤ t))

/-- Apply the `$set` of the update body to the document. -/
def applyUpdate (l : Lot) (b : UpdateBody) : Lot :=
  { l with quantity := b.quantity.getD l.quantity,
           reservedQuantity := b.reservedQuantity.getD l.reservedQuantity,
           availableQuantity := b.availableQuantity.getD l.availableQuantity,
           status := b.status.getD l.status,
           alerts := { l.alerts with
             lowStockThreshold := b.lowStockThreshold.getD l.alerts.lowStockThreshold } }

/-- The PUT update endpoint: zod boundary check, then `findByIdAndUpdate` with
update validators.  `findByIdAndUpdate` does not run the pre-save hook, so
`availableQuantity` is not recomputed.  A failed validation leaves the
persisted document unchanged. -/
def updateInventoryItem (l : Lot) (b : UpdateBody) : Lot :=
  if updateBodyZodValid b && updateValidatorsOk b then applyUpdate l b else l

/-- One item of the bulk-update endpoint: zod requires `quantity ≥ 0`; the
controller does `Object.assign(inventory, item)` and `save()`s the document
(per-item failures are recorded and skipped). -/
def bulkUpdateItem (l : Lot) (qty : Int) : Lot :=
  if decide (0 ≤ qty) then
    match save { l with quantity := qty } with
    | some l2 => l2
    | none => l
  else l

/-- The create-request fields the model keeps (pricing/supplier/location are
omitted: no claim refers to them). -/
structure CreateInput where
  shopId : Nat
  medicineId : Nat
  batchNumber : String
  quantity : Int
  manufacturingDate : Int
  expiryDate : Int
  lowStockThreshold : Int
  expiryAlertDays : Int
deriving Repr, DecidableEq

/-- The zod `createInventorySchema` checks on the modelled fields. -/
def createZodValid (i : CreateInput) : Bool :=
  (i.batchNumber != "")
    && decide (i.batchNumber.length ≤ 50)
    && decide (0 ≤ i.quantity)
    && decide (i.manufacturingDate < i.expiryDate)
    && decide (0 ≤ i.lowStockThreshold)
    && decide (0 ≤ i.expiryAlertDays)

/-- The document handed to `Inventory.create`: schema defaults
`reservedQuantity = 0`, `availableQuantity = 0`, `status = "active"`, empty
movement list.  No movement is recorded and no status is derived by the
controller. -/
def newLotDoc (i : CreateInput) (createdBy : String) (now : Int) : Lot :=
  { shopId := i.shopId, medicineId := i.medicineId, batchNumber := i.batchNumber,
    quantity := i.quantity, reservedQuantity := 0, availableQuantity := 0,
    status := "active",
    alerts := { lowStockThreshold := i.lowStockThreshold,
                expiryAlertDays := i.expiryAlertDays },
    expiryDate := i.expiryDate, stockMovements := [], lastStockUpdate := now,
    createdBy := createdBy }

/-- Outcome of the create endpoint. -/
inductive CreateResult where
  /-- 201: the new database contents and the created document. -/
  | created (db : List Lot) (lot : Lot)
  /-- 400 from the explicit controller check: the
  (shopId, medicineId, batchNumber) triple already exists. -/
  | conflictBatch
  /-- E11000 duplicate-key error from the unique index, which is declared on
  (shopId, medicineId) only. -/
  | duplicateKey
  /-- zod or schema validation error. -/
  | invalid
deriving Repr, DecidableEq

/-- The POST create endpoint over the whole inventory collection: zod
boundary, explicit duplicate-triple check, document validation, then the
insert which the unique (shopId, medicineId) index guards. -/
def addInventoryItem (db : List Lot) (i : CreateInput) (createdBy : String)
    (now : Int) : CreateResult :=
  if !createZodValid i then .invalid
  else if db.any (fun l =>
      l.shopId == i.shopId && l.medicineId == i.medicineId
        && l.batchNumber == i.batchNumber) then .conflictBatch
  else
    match save (newLotDoc i createdBy now) with
    | none => .invalid
    | some lot =>
      if db.any (fun l => l.shopId == i.shopId && l.medicineId == i.medicineId)
      then .duplicateKey
      else .created (db ++ [lot]) lot

/-- The zod `stockMovementSchema` wired on the movement route: `type` must be
in/out/adjustment (no "return"), `quantity ≥ 1`, `reason` in the schema reason
enum, notes at most 200 characters. -/
def movementBodyZodValid (type : String) (qty : Int) (reason notes : String) : Bool :=
  ["in", "out", "adjustment"].contains type
    && decide (1 ≤ qty)
    && movementReasonEnum.contains reason
    && decide (notes.length ≤ 200)

/-- The POST movement endpoint: zod boundary check, then the model method; a
rejected save (or zod rejection) leaves the persisted lot unchanged. -/
def movementEndpoint (l : Lot) (type : String) (qty : Int)
    (reason userId : String) (reference : Option String) (notes : String)
    (now : Int) : Lot :=
  if movementBodyZodValid type qty reason notes then
    match addStockMovement l type qty reason userId reference notes now with
    | some l2 => l2
    | none => l
  else l

/-- One write operation on a single lot, as reachable through the HTTP API or
the order-event consumer. -/
inductive Op where
  /-- PUT update endpoint. -/
  | update (b : UpdateBody)
  /-- one item of the bulk-update endpoint. -/
  | bulkItem (qty : Int)
  /-- POST movement endpoint (zod boundary then the model method). -/
  | movement (type : String) (qty : Int) (reason userId : String)
      (reference : Option String) (notes : String) (now : Int)
  /-- order.placed event, one line item. -/
  | placed (qty : Int) (userId orderId : String) (now : Int)
  /-- order.confirmed event, one line item. -/
  | confirmed (qty : Int) (userId orderId : String) (now : Int)
  /-- order.cancelled event, one line item. -/
  | cancelled (qty : Int) (orderId : String) (now : Int)
  /-- order.delivered event: reads and publishes alerts only, no write. -/
  | delivered
deriving Repr, DecidableEq

/-- Persisted-state transition of one operation on one lot. -/
def step (l : Lot) : Op → Lot
  | .update b => updateInventoryItem l b
  | .bulkItem qty => bulkUpdateItem l qty
  | .movement type qty reason userId reference notes now =>
    movementEndpoint l type qty reason userId reference notes now
  | .placed qty userId orderId now => handleOrderPlacedItem l qty userId orderId now
  | .confirmed qty userId orderId now => handleOrderConfirmedItem l qty userId orderId now
  | .cancelled qty orderId now => handleOrderCancelledItem l qty orderId now
  | .delivered => l

/-- The derived-field invariant of the spec. -/
def invAvail (l : Lot) : Prop :=
  l.availableQuantity = max 0 (l.quantity - l.reservedQuantity)

/-- A persisted lot: it passed schema validation and its
`availableQuantity` was written by the pre-save hook. -/
def wfLot (l : Lot) : Prop :=
  validLot l = true ∧ invAvail l

instance (l : Lot) : Decidable (invAvail l) := by
  unfold invAvail; infer_instance

instance (l : Lot) : Decidable (wfLot l) := by
  unfold wfLot; infer_instance

/-- No two distinct lots share a (shopId, medicineId) pair. -/
def pairUnique (db : List Lot) : Prop :=
  db.Pairwise (fun a b => ¬(a.shopId = b.shopId ∧ a.medicineId = b.medicineId))

/-- No two distinct lots share a (shopId, medicineId, batchNumber) triple. -/
def tripleUnique (db : List Lot) : Prop :=
  db.Pairwise (fun a b =>
    ¬(a.shopId = b.shopId ∧ a.medicineId = b.medicineId
        ∧ a.batchNumber = b.batchNumber))

instance (db : List Lot) : Decidable (pairUnique db) := by
  unfold pairUnique; infer_instance

instance (db : List Lot) : Decidable (tripleUnique db) := by
  unfold tripleUnique; infer_instance

/-- Whether an operation is the PUT update endpoint (the one write path that
does not go through a document `save`). -/
def Op.isUpdate : Op → Bool
  | .update _ => true
  | _ => false

/-- A well-formed 24-hex-character ObjectId string used in concrete scenarios. -/
def oid1 : String := "507f1f77bcf86cd799439011"

/-- The lot of spec Scenario A after creation: quantity 100, nothing reserved,
low-stock threshold 10, not expired at clock 0. -/
def lotA : Lot :=
  { shopId := 1, medicineId := 2, batchNumber := "B1", quantity := 100,
    reservedQuantity := 0, availableQuantity := 100, status := "active",
    alerts := { lowStockThreshold := 10, expiryAlertDays := 30 },
    expiryDate := 1000, stockMovements := [], lastStockUpdate := 0,
    createdBy := oid1 }

/-! Helper lemmas about validation and `save`. -/

theorem validLot_fields {l : Lot} (h : validLot l = true) :
    0 ≤ l.quantity ∧ 0 ≤ l.reservedQuantity ∧ 0 ≤ l.availableQuantity
      ∧ statusEnum.contains l.status = true
      ∧ 0 ≤ l.alerts.lowStockThreshold ∧ 0 ≤ l.alerts.expiryAlertDays
      ∧ (l.batchNumber != "") = true
      ∧ l.stockMovements.all validMovement = true
      ∧ isValidObjectId l.createdBy = true := by
  simp only [validLot, Bool.and_eq_true, decide_eq_true_eq] at h
  tauto

theorem validLot_of_fields {l : Lot}
    (h1 : 0 ≤ l.quantity) (h2 : 0 ≤ l.reservedQuantity)
    (h3 : 0 ≤ l.availableQuantity) (h4 : statusEnum.contains l.status = true)
    (h5 : 0 ≤ l.alerts.lowStockThreshold) (h6 : 0 ≤ l.alerts.expiryAlertDays)
    (h7 : (l.batchNumber != "") = true)
    (h8 : l.stockMovements.all validMovement = true)
    (h9 : isValidObjectId l.createdBy = true) : validLot l = true := by
  simp only [validLot, Bool.and_eq_true, decide_eq_true_eq]
  tauto

theorem save_eq_some {l l' : Lot} (h : save l = some l') :
    validLot l = true ∧ l' = preSave l := by
  unfold save at h
  by_cases hv : validLot l = true
  · simp [hv] at h; exact ⟨hv, h.symm⟩
  · simp [hv] at h

theorem save_of_valid {l : Lot} (h : validLot l = true) :
    save l = some (preSave l) := by
  simp [save, h]

theorem preSave_invAvail (l : Lot) : invAvail (preSave l) := by
  simp [preSave, invAvail]

theorem validLot_preSave {l : Lot} (h : validLot l = true) :
    validLot (preSave l) = true := by
  obtain ⟨h1, h2, _, h4, h5, h6, h7, h8, h9⟩ := validLot_fields h
  exact validLot_of_fields h1 h2 (le_max_left _ _) h4 h5 h6 h7 h8 h9

theorem save_eq_some_wf {l l' : Lot} (h : save l = some l') : wfLot l' := by
  obtain ⟨hv, rfl⟩ := save_eq_some h
  exact ⟨validLot_preSave hv, preSave_invAvail l⟩

theorem wfLot_nonneg {l : Lot} (h : wfLot l) :
    0 ≤ l.quantity ∧ 0 ≤ l.reservedQuantity :=
  ⟨(validLot_fields h.1).1, (validLot_fields h.1).2.1⟩

theorem addStockMovement_eq_some_wf {l l' : Lot} {type : String} {qty : Int}
    {reason performedBy : String} {reference : Option String} {notes : String}
    {now : Int}
    (h : addStockMovement l type qty reason performedBy reference notes now
      = some l') : wfLot l' := by
  unfold addStockMovement at h
  exact save_eq_some_wf h

theorem addStockMovement_none_of_bad_reason {l : Lot} {type : String}
    {qty : Int} {reason performedBy : String} {reference : Option String}
    {notes : String} {now : Int}
    (h : movementReasonEnum.contains reason = false) :
    addStockMovement l type qty reason performedBy reference notes now = none := by
  unfold addStockMovement save
  rw [if_neg]
  intro hv
  have hall := (validLot_fields hv).2.2.2.2.2.2.2.1
  simp only [List.all_append, Bool.and_eq_true, List.all_cons, List.all_nil,
    Bool.and_true, validMovement] at hall
  rw [h] at hall
  simp at hall

/-- Each non-update operation either leaves the persisted lot unchanged or
ends in a successful Mongoose save, whose result is well-formed. -/
theorem step_cases (l : Lot) (op : Op) (h : op.isUpdate = false) :
    step l op = l ∨ wfLot (step l op) := by
  cases op with
  | update b => simp [Op.isUpdate] at h
  | bulkItem qty =>
    show bulkUpdateItem l qty = l ∨ wfLot (bulkUpdateItem l qty)
    unfold bulkUpdateItem
    split
    · split
      · rename_i l2 hs
        exact Or.inr (save_eq_some_wf hs)
      · exact Or.inl rfl
    · exact Or.inl rfl
  | movement type qty reason userId reference notes now =>
    show movementEndpoint l type qty reason userId reference notes now = l
      ∨ wfLot (movementEndpoint l type qty reason userId reference notes now)
    unfold movementEndpoint
    split
    · split
      · rename_i l2 hm
        exact Or.inr (addStockMovement_eq_some_wf hm)
      · exact Or.inl rfl
    · exact Or.inl rfl
  | placed qty userId orderId now =>
    show handleOrderPlacedItem l qty userId orderId now = l
      ∨ wfLot (handleOrderPlacedItem l qty userId orderId now)
    unfold handleOrderPlacedItem
    split
    · exact Or.inl rfl
    · split
      · exact Or.inl rfl
      · rename_i l1 hs
        split
        · exact Or.inr (save_eq_some_wf hs)
        · rename_i l2 hm
          exact Or.inr (addStockMovement_eq_some_wf hm)
  | confirmed qty userId orderId now =>
    show handleOrderConfirmedItem l qty userId orderId now = l
      ∨ wfLot (handleOrderConfirmedItem l qty userId orderId now)
    unfold handleOrderConfirmedItem
    split
    · exact Or.inl rfl
    · rename_i l1 hs
      split
      · exact Or.inr (save_eq_some_wf hs)
      · rename_i l2 hm
        exact Or.inr (addStockMovement_eq_some_wf hm)
  | cancelled qty orderId now =>
    show handleOrderCancelledItem l qty orderId now = l
      ∨ wfLot (handleOrderCancelledItem l qty orderId now)
    unfold handleOrderCancelledItem
    split
    · exact Or.inl rfl
    · rename_i l1 hs
      split
      · exact Or.inr (save_eq_some_wf hs)
      · rename_i l2 hm
        exact Or.inr (addStockMovement_eq_some_wf hm)
  | delivered => exact Or.inl rfl

theorem applyUpdate_nonneg {l : Lot} {b : UpdateBody}
    (h1 : 0 ≤ l.quantity) (h2 : 0 ≤ l.reservedQuantity)
    (hv : updateValidatorsOk b = true) :
    0 ≤ (applyUpdate l b).quantity ∧ 0 ≤ (applyUpdate l b).reservedQuantity := by
  simp only [updateValidatorsOk, Bool.and_eq_true] at hv
  obtain ⟨⟨⟨⟨hq, hr⟩, _⟩, _⟩, _⟩ := hv
  constructor
  · show 0 ≤ b.quantity.getD l.quantity
    cases hb : b.quantity with
    | none => simpa using h1
    | some v =>
      rw [hb] at hq
      simpa [Option.all] using hq
  · show 0 ≤ b.reservedQuantity.getD l.reservedQuantity
    cases hb : b.reservedQuantity with
    | none => simpa using h2
    | some v =>
      rw [hb] at hr
      simpa [Option.all] using hr

theorem eq_update_of_isUpdate {op : Op} (h : op.isUpdate = true) :
    ∃ b, op = .update b := by
  cases op <;> simp [Op.isUpdate] at h ⊢

theorem step_nonneg {l : Lot} (h1 : 0 ≤ l.quantity)
    (h2 : 0 ≤ l.reservedQuantity) (op : Op) :
    0 ≤ (step l op).quantity ∧ 0 ≤ (step l op).reservedQuantity := by
  by_cases hu : op.isUpdate = true
  · obtain ⟨b, rfl⟩ := eq_update_of_isUpdate hu
    show 0 ≤ (updateInventoryItem l b).quantity
      ∧ 0 ≤ (updateInventoryItem l b).reservedQuantity
    unfold updateInventoryItem
    split
    · rename_i hok
      exact applyUpdate_nonneg h1 h2 ((Bool.and_eq_true _ _).mp hok).2
    · exact ⟨h1, h2⟩
  · rcases step_cases l op (by simpa using hu) with heq | hwf
    · rw [heq]; exact ⟨h1, h2⟩
    · exact wfLot_nonneg hwf

theorem foldl_step_nonneg {l : Lot} (h1 : 0 ≤ l.quantity)
    (h2 : 0 ≤ l.reservedQuantity) (ops : List Op) :
    0 ≤ (ops.foldl step l).quantity ∧ 0 ≤ (ops.foldl step l).reservedQuantity := by
  induction ops generalizing l with
  | nil => exact ⟨h1, h2⟩
  | cons op ops ih =>
    simp only [List.foldl_cons]
    exact ih (step_nonneg h1 h2 op).1 (step_nonneg h1 h2 op).2

theorem step_invAvail {l : Lot} (h : invAvail l) {op : Op}
    (hop : op.isUpdate = false) : invAvail (step l op) := by
  rcases step_cases l op hop with heq | hwf
  · rw [heq]; exact h
  · exact hwf.2

theorem foldl_step_invAvail {l : Lot} (h : invAvail l) {ops : List Op}
    (hops : ∀ op ∈ ops, op.isUpdate = false) : invAvail (ops.foldl step l) := by
  induction ops generalizing l with
  | nil => exact h
  | cons op ops ih =>
    simp only [List.foldl_cons]
    exact ih (step_invAvail h (hops op (by simp)))
      (fun o ho => hops o (by simp [ho]))

theorem preSave_stockMovements (l : Lot) :
    (preSave l).stockMovements = l.stockMovements := rfl

theorem handleOrderPlacedItem_stockMovements (l : Lot) (qty : Int)
    (userId orderId : String) (now : Int) :
    (handleOrderPlacedItem l qty userId orderId now).stockMovements
      = l.stockMovements := by
  unfold handleOrderPlacedItem
  split
  · rfl
  · split
    · rfl
    · rename_i l1 hs
      rw [addStockMovement_none_of_bad_reason (by decide)]
      obtain ⟨_, rfl⟩ := save_eq_some hs
      rfl

theorem handleOrderConfirmedItem_stockMovements (l : Lot) (qty : Int)
    (userId orderId : String) (now : Int) :
    (handleOrderConfirmedItem l qty userId orderId now).stockMovements
      = l.stockMovements := by
  unfold handleOrderConfirmedItem
  split
  · rfl
  · rename_i l1 hs
    rw [addStockMovement_none_of_bad_reason (by decide)]
    obtain ⟨_, rfl⟩ := save_eq_some hs
    rfl

theorem handleOrderCancelledItem_stockMovements (l : Lot) (qty : Int)
    (orderId : String) (now : Int) :
    (handleOrderCancelledItem l qty orderId now).stockMovements
      = l.stockMovements := by
  unfold handleOrderCancelledItem
  split
  · rfl
  · rename_i l1 hs
    rw [addStockMovement_none_of_bad_reason (by decide)]
    obtain ⟨_, rfl⟩ := save_eq_some hs
    rfl

theorem movedQty_in (l : Lot) (qty : Int) :
    movedQty l "in" qty = l.quantity + qty := rfl

theorem movedQty_out (l : Lot) (qty : Int) :
    movedQty l "out" qty = l.quantity - qty := rfl

theorem movedQty_adjustment (l : Lot) (qty : Int) :
    movedQty l "adjustment" qty = qty := rfl

theorem movedQty_return (l : Lot) (qty : Int) :
    movedQty l "return" qty = l.quantity := rfl

theorem movementStatus_mem {l : Lot} {now : Int}
    (h : l.quantity ≠ 0 ∨ isExpired l now = true) :
    statusEnum.contains (movementStatus l now) = true := by
  unfold movementStatus
  split
  · decide
  · rename_i hx
    split
    · rename_i hq
      rcases h with h | h
      · exact absurd (by simpa using hq) h
      · exact absurd h (by simpa using hx)
    · split <;> decide

/-- A movement whose type/reason/actor pass subdocument validation, applied to
a well-formed lot, saves successfully exactly when the updated quantity is
allowed by the quantity validator and the derived status is in the status
enum; the saved on-hand quantity is `movedQty`. -/
theorem addStockMovement_success (l : Lot) (type : String) (qty : Int)
    (reason performedBy : String) (reference : Option String) (notes : String)
    (now : Int) (hwf : wfLot l)
    (ht : movementTypeEnum.contains type = true)
    (hr : movementReasonEnum.contains reason = true)
    (hp : isValidObjectId performedBy = true)
    (h0 : 0 ≤ movedQty l type qty)
    (hnz : movedQty l type qty ≠ 0 ∨ isExpired l now = true) :
    (addStockMovement l type qty reason performedBy reference notes now).map
      (fun x => x.quantity) = some (movedQty l type qty) := by
  obtain ⟨w1, w2, w3, w4, w5, w6, w7, w8, w9⟩ := validLot_fields hwf.1
  unfold addStockMovement
  rw [save_of_valid]
  · rfl
  · refine validLot_of_fields h0 w2 (le_max_left _ _) ?_ w5 w6 w7 ?_ w9
    · exact movementStatus_mem (by simpa [isExpired] using hnz)
    · simp only [List.all_append, List.all_cons, List.all_nil, Bool.and_true,
        Bool.and_eq_true, validMovement]
      exact ⟨w8, ⟨ht, hr⟩, hp⟩

/-- A movement that would drive the on-hand quantity negative is rejected by
the quantity min-validator: the save fails and nothing is persisted. -/
theorem addStockMovement_fail_neg (l : Lot) (type : String) (qty : Int)
    (reason performedBy : String) (reference : Option String) (notes : String)
    (now : Int) (h : movedQty l type qty < 0) :
    addStockMovement l type qty reason performedBy reference notes now = none := by
  unfold addStockMovement save
  rw [if_neg]
  intro hv
  have h1 := (validLot_fields hv).1
  simp only [] at h1
  omega

/-- A movement that brings the on-hand quantity to exactly zero on a
non-expired lot derives the status "out-of-stock", which is not in the status
enum, so the save is rejected. -/
theorem addStockMovement_fail_zero (l : Lot) (type : String) (qty : Int)
    (reason performedBy : String) (reference : Option String) (notes : String)
    (now : Int) (h0 : movedQty l type qty = 0)
    (hx : isExpired l now = false) :
    addStockMovement l type qty reason performedBy reference notes now = none := by
  unfold addStockMovement save
  rw [if_neg]
  intro hv
  have h4 := (validLot_fields hv).2.2.2.1
  have hstat : movementStatus
      { l with
        stockMovements := l.stockMovements ++
          [{ type := type, quantity := qty, reason := reason,
             reference := reference, performedBy := performedBy,
             timestamp := now, notes := notes }],
        quantity := movedQty l type qty,
        availableQuantity := max 0 (movedQty l type qty - l.reservedQuantity),
        lastStockUpdate := now } now = "out-of-stock" := by
    unfold movementStatus
    rw [if_neg, if_pos]
    · simpa using h0
    · simpa [isExpired] using hx
  rw [hstat] at h4
  have h5 : statusEnum.contains "out-of-stock" = true := h4
  exact absurd h5 (by decide)

theorem handleOrderConfirmedItem_insufficient {l : Lot} {qty : Int}
    (h : l.reservedQuantity < qty) (userId orderId : String) (now : Int) :
    handleOrderConfirmedItem l qty userId orderId now = l := by
  unfold handleOrderConfirmedItem
  have hs : save { l with
      reservedQuantity := l.reservedQuantity - qty,
      quantity := l.quantity - qty,
      availableQuantity :=
        max 0 ((l.quantity - qty) - (l.reservedQuantity - qty)) } = none := by
    unfold save
    rw [if_neg]
    intro hv
    have h2 := (validLot_fields hv).2.1
    simp only [] at h2
    omega
  rw [hs]

theorem movementEndpoint_out_insufficient {l : Lot} {qty : Int}
    (h : l.quantity < qty) (reason userId : String) (reference : Option String)
    (notes : String) (now : Int) :
    movementEndpoint l "out" qty reason userId reference notes now = l := by
  unfold movementEndpoint
  split
  · rw [addStockMovement_fail_neg l "out" qty reason userId reference notes now
      (by rw [movedQty_out]; omega)]
  · rfl

theorem handleOrderCancelledItem_reserved {l : Lot} (hwf : wfLot l)
    (qty : Int) (orderId : String) (now : Int) :
    (handleOrderCancelledItem l qty orderId now).reservedQuantity
      = max 0 (l.reservedQuantity - qty) := by
  obtain ⟨w1, w2, w3, w4, w5, w6, w7, w8, w9⟩ := validLot_fields hwf.1
  have hv : validLot { l with
      reservedQuantity := max 0 (l.reservedQuantity - qty),
      availableQuantity :=
        max 0 (l.quantity - max 0 (l.reservedQuantity - qty)) } = true :=
    validLot_of_fields w1 (le_max_left _ _) (le_max_left _ _) w4 w5 w6 w7 w8 w9
  unfold handleOrderCancelledItem
  split
  · rename_i hs
    rw [save_of_valid hv] at hs
    cases hs
  · rename_i l1 hs
    rw [save_of_valid hv] at hs
    obtain rfl : l1 = _ := (Option.some.inj hs).symm
    rw [addStockMovement_none_of_bad_reason (by decide)]
    rfl

theorem createZodValid_fields {i : CreateInput} (h : createZodValid i = true) :
    (i.batchNumber != "") = true ∧ i.batchNumber.length ≤ 50 ∧ 0 ≤ i.quantity
      ∧ i.manufacturingDate < i.expiryDate ∧ 0 ≤ i.lowStockThreshold
      ∧ 0 ≤ i.expiryAlertDays := by
  simp only [createZodValid, Bool.and_eq_true, decide_eq_true_eq] at h
  tauto

theorem validLot_newLotDoc {i : CreateInput} {cb : String} {now : Int}
    (hzod : createZodValid i = true) (hcb : isValidObjectId cb = true) :
    validLot (newLotDoc i cb now) = true := by
  obtain ⟨hb, _, hq, _, ht, he⟩ := createZodValid_fields hzod
  exact validLot_of_fields hq le_rfl le_rfl
    (show statusEnum.contains "active" = true by decide) ht he hb rfl hcb

theorem addInventoryItem_created {db : List Lot} {i : CreateInput} {cb : String}
    {now : Int} (hzod : createZodValid i = true)
    (hcb : isValidObjectId cb = true)
    (hnp : ∀ l ∈ db, ¬(l.shopId = i.shopId ∧ l.medicineId = i.medicineId)) :
    addInventoryItem db i cb now
      = .created (db ++ [preSave (newLotDoc i cb now)])
          (preSave (newLotDoc i cb now)) := by
  have hpair : (db.any fun l =>
      l.shopId == i.shopId && l.medicineId == i.medicineId) = false := by
    simp only [List.any_eq_false]
    intro l hl
    have := hnp l hl
    simp only [Bool.and_eq_true, beq_iff_eq]
    tauto
  have htrip : (db.any fun l =>
      l.shopId == i.shopId && l.medicineId == i.medicineId
        && l.batchNumber == i.batchNumber) = false := by
    simp only [List.any_eq_false]
    intro l hl
    have := hnp l hl
    simp only [Bool.and_eq_true, beq_iff_eq]
    tauto
  unfold addInventoryItem
  rw [save_of_valid (validLot_newLotDoc hzod hcb)]
  simp [hzod, hpair, htrip]

theorem addInventoryItem_created_inv {db : List Lot} {i : CreateInput}
    {cb : String} {now : Int} {db2 : List Lot} {lot : Lot}
    (h : addInventoryItem db i cb now = .created db2 lot) :
    db2 = db ++ [lot] ∧ lot = preSave (newLotDoc i cb now)
      ∧ lot.shopId = i.shopId ∧ lot.medicineId = i.medicineId
      ∧ (db.any fun l =>
          l.shopId == i.shopId && l.medicineId == i.medicineId) = false := by
  unfold addInventoryItem at h
  split at h
  · exact absurd h (by simp)
  · split at h
    · exact absurd h (by simp)
    · split at h
      · exact absurd h (by simp)
      · rename_i lot' hs
        split at h
        · exact absurd h (by simp)
        · rename_i hpair
          injection h with h1 h2
          subst h2
          obtain ⟨_, rfl⟩ := save_eq_some hs
          exact ⟨h1.symm, rfl, rfl, rfl, by simpa using hpair⟩

theorem addInventoryItem_conflictBatch {db : List Lot} {i : CreateInput}
    {cb : String} {now : Int} (hzod : createZodValid i = true)
    (hex : ∃ l ∈ db, l.shopId = i.shopId ∧ l.medicineId = i.medicineId
      ∧ l.batchNumber = i.batchNumber) :
    addInventoryItem db i cb now = .conflictBatch := by
  unfold addInventoryItem
  rw [if_neg (by simp [hzod]), if_pos]
  simp only [List.any_eq_true, Bool.and_eq_true, beq_iff_eq]
  obtain ⟨l, hl, h1, h2, h3⟩ := hex
  exact ⟨l, hl, ⟨h1, h2⟩, h3⟩

theorem addInventoryItem_duplicateKey {db : List Lot} {i : CreateInput}
    {cb : String} {now : Int} (hzod : createZodValid i = true)
    (hcb : isValidObjectId cb = true)
    (hpair : ∃ l ∈ db, l.shopId = i.shopId ∧ l.medicineId = i.medicineId)
    (htrip : ∀ l ∈ db, ¬(l.shopId = i.shopId ∧ l.medicineId = i.medicineId
      ∧ l.batchNumber = i.batchNumber)) :
    addInventoryItem db i cb now = .duplicateKey := by
  have ht : (db.any fun l =>
      l.shopId == i.shopId && l.medicineId == i.medicineId
        && l.batchNumber == i.batchNumber) = false := by
    simp only [List.any_eq_false]
    intro l hl
    have := htrip l hl
    simp only [Bool.and_eq_true, beq_iff_eq]
    tauto
  have hp : (db.any fun l =>
      l.shopId == i.shopId && l.medicineId == i.medicineId) = true := by
    simp only [List.any_eq_true, Bool.and_eq_true, beq_iff_eq]
    obtain ⟨l, hl, h1, h2⟩ := hpair
    exact ⟨l, hl, h1, h2⟩
  unfold addInventoryItem
  rw [save_of_valid (validLot_newLotDoc hzod hcb)]
  simp [hzod, ht, hp]

theorem pairUnique_tripleUnique {db : List Lot} (h : pairUnique db) :
    tripleUnique db := by
  refine List.Pairwise.imp ?_ h
  intro a b hab htrip
  exact hab ⟨htrip.1, htrip.2.1⟩

theorem pairUnique_append {db : List Lot} {lot : Lot} (h : pairUnique db)
    (hnp : ∀ l ∈ db, ¬(l.shopId = lot.shopId ∧ l.medicineId = lot.medicineId)) :
    pairUnique (db ++ [lot]) := by
  unfold pairUnique
  rw [List.pairwise_append]
  refine ⟨h, List.pairwise_singleton _ _, ?_⟩
  intro a ha b hb
  simp only [List.mem_singleton] at hb
  subst hb
  exact hnp a ha

/-! Claim theorems. -/

/-- Claim C1 (corrected), counterexample: the claim says `availableQuantity`
equals `max 0 (quantity - reservedQuantity)` after every write, including the
inventory-update endpoint.  Updating `quantity` from 100 to 40 through the
update endpoint leaves the persisted `availableQuantity` at 100, because
`findByIdAndUpdate` does not run the pre-save recomputation hook. -/
theorem c1_update_endpoint_breaks_available_invariant :
    invAvail lotA
      ∧ (updateInventoryItem lotA
          { quantity := some 40, reservedQuantity := none,
            availableQuantity := none, status := none,
            lowStockThreshold := none }).quantity = 40
      ∧ (updateInventoryItem lotA
          { quantity := some 40, reservedQuantity := none,
            availableQuantity := none, status := none,
            lowStockThreshold := none }).availableQuantity = 100
      ∧ ¬ invAvail (updateInventoryItem lotA
          { quantity := some 40, reservedQuantity := none,
            availableQuantity := none, status := none,
            lowStockThreshold := none }) := by
  decide

/-- Claim C1 (corrected, amended): `availableQuantity = max 0 (quantity -
reservedQuantity)` holds after every operation that persists through a
document save — creation, bulk update, direct stock movements, and the
order-lifecycle events — because the pre-save hook recomputes it; the direct
update endpoint is excluded, since `findByIdAndUpdate` bypasses the hook. -/
theorem c1_available_invariant_on_save_paths (l : Lot) (ops : List Op)
    (h : invAvail l) (hops : ∀ op ∈ ops, op.isUpdate = false) :
    invAvail (ops.foldl step l)
      ∧ ∀ (db : List Lot) (i : CreateInput) (cb : String) (now : Int)
          (db2 : List Lot) (lot : Lot),
          addInventoryItem db i cb now = .created db2 lot → invAvail lot := by
  refine ⟨foldl_step_invAvail h hops, ?_⟩
  intro db i cb now db2 lot hc
  obtain ⟨_, rfl, _⟩ := addInventoryItem_created_inv hc
  exact preSave_invAvail _

/-- Witness for the amended theorem of C1 at the Scenario A lot and a list of
save-based operations. -/
theorem c1_available_invariant_on_save_paths_witness :
    invAvail lotA
      ∧ (∀ op ∈ [Op.bulkItem 30, Op.cancelled 5 "ord1" 0,
            Op.movement "in" 7 "purchase" oid1 none "" 0], Op.isUpdate op = false)
      ∧ invAvail ([Op.bulkItem 30, Op.cancelled 5 "ord1" 0,
            Op.movement "in" 7 "purchase" oid1 none "" 0].foldl step lotA) :=
  ⟨by decide, by decide,
    (c1_available_invariant_on_save_paths lotA
      [Op.bulkItem 30, Op.cancelled 5 "ord1" 0,
        Op.movement "in" 7 "purchase" oid1 none "" 0]
      (by decide) (by decide)).1⟩

/-- Claim C2 (confirmed): across every sequence of operations the persisted
`quantity` and `reservedQuantity` stay nonnegative; an "out" movement that
would drive `quantity` negative is rejected with the lot unchanged (not
clamped); a confirmation without a sufficient reservation is likewise
rejected unchanged; only the cancelled event clamps `reservedQuantity` at
zero. -/
theorem c2_quantities_never_negative (l : Lot) (ops : List Op)
    (h1 : 0 ≤ l.quantity) (h2 : 0 ≤ l.reservedQuantity) :
    (0 ≤ (ops.foldl step l).quantity ∧ 0 ≤ (ops.foldl step l).reservedQuantity)
      ∧ (∀ (qty : Int) (reason userId : String) (reference : Option String)
          (notes : String) (now : Int), l.quantity < qty →
          movementEndpoint l "out" qty reason userId reference notes now = l)
      ∧ (∀ (qty : Int) (userId orderId : String) (now : Int),
          l.reservedQuantity < qty →
          handleOrderConfirmedItem l qty userId orderId now = l)
      ∧ (∀ (qty : Int) (orderId : String) (now : Int), wfLot l →
          (handleOrderCancelledItem l qty orderId now).reservedQuantity
            = max 0 (l.reservedQuantity - qty)) := by
  refine ⟨foldl_step_nonneg h1 h2 ops, ?_, ?_, ?_⟩
  · intro qty reason userId reference notes now hlt
    exact movementEndpoint_out_insufficient hlt reason userId reference notes now
  · intro qty userId orderId now hlt
    exact handleOrderConfirmedItem_insufficient hlt userId orderId now
  · intro qty orderId now hwf
    exact handleOrderCancelledItem_reserved hwf qty orderId now

/-- Witness for C2 at the Scenario A lot and a mixed operation list. -/
theorem c2_quantities_never_negative_witness :
    0 ≤ lotA.quantity ∧ 0 ≤ lotA.reservedQuantity
      ∧ 0 ≤ ([Op.placed 10 oid1 "ord1" 0, Op.confirmed 10 oid1 "ord1" 0,
            Op.movement "out" 500 "sale" oid1 none "" 0,
            Op.cancelled 3 "ord1" 0].foldl step lotA).quantity
      ∧ 0 ≤ ([Op.placed 10 oid1 "ord1" 0, Op.confirmed 10 oid1 "ord1" 0,
            Op.movement "out" 500 "sale" oid1 none "" 0,
            Op.cancelled 3 "ord1" 0].foldl step lotA).reservedQuantity :=
  ⟨by decide, by decide,
    (c2_quantities_never_negative lotA
      [Op.placed 10 oid1 "ord1" 0, Op.confirmed 10 oid1 "ord1" 0,
        Op.movement "out" 500 "sale" oid1 none "" 0,
        Op.cancelled 3 "ord1" 0] (by decide) (by decide)).1.1,
    (c2_quantities_never_negative lotA
      [Op.placed 10 oid1 "ord1" 0, Op.confirmed 10 oid1 "ord1" 0,
        Op.movement "out" 500 "sale" oid1 none "" 0,
        Op.cancelled 3 "ord1" 0] (by decide) (by decide)).1.2⟩

/-- Claim C3 (code_bug): evaluating Scenario A on the code — a placed event
reserving 95 on a lot with quantity 100 and threshold 10 persists
`reservedQuantity = 95` and `availableQuantity = 5`, but the reservation
movement is never recorded and the status stays "active" instead of becoming
"low-stock": the movement save is rejected because "order_reservation" is not
in the movement reason enum. -/
theorem c3_placed_scenario_a_divergence :
    handleOrderPlacedItem lotA 95 oid1 "ord1" 0
        = { lotA with reservedQuantity := 95, availableQuantity := 5 }
      ∧ (handleOrderPlacedItem lotA 95 oid1 "ord1" 0).status = "active"
      ∧ (handleOrderPlacedItem lotA 95 oid1 "ord1" 0).stockMovements = []
      ∧ movementReasonEnum.contains "order_reservation" = false := by
  decide

/-- Claim C4 (code_bug): evaluating Scenario B on the code — confirming 95
from the reachable post-placed state persists quantity 5, reservedQuantity 0,
availableQuantity 5, but records no movements and leaves status "active"
instead of "low-stock"; and confirming against a missing reservation rejects
the whole save, leaving the lot unchanged with no reconciliation alert
recorded. -/
theorem c4_confirmed_scenario_b_divergence :
    handleOrderConfirmedItem
        { lotA with reservedQuantity := 95, availableQuantity := 5 }
        95 oid1 "ord1" 0
        = { lotA with quantity := 5, availableQuantity := 5 }
      ∧ (handleOrderConfirmedItem
          { lotA with reservedQuantity := 95, availableQuantity := 5 }
          95 oid1 "ord1" 0).status = "active"
      ∧ (handleOrderConfirmedItem
          { lotA with reservedQuantity := 95, availableQuantity := 5 }
          95 oid1 "ord1" 0).stockMovements = []
      ∧ handleOrderConfirmedItem lotA 10 oid1 "ord1" 0 = lotA := by
  decide

/-- Claim C5 (code_bug): there is no idempotency ledger — delivering the same
placed event (order "ord1", 10 units) twice to the Scenario A lot reserves 20
units, twice one reservation, not once. -/
theorem c5_replayed_placed_double_reserves :
    (handleOrderPlacedItem lotA 10 oid1 "ord1" 0).reservedQuantity = 10
      ∧ (handleOrderPlacedItem (handleOrderPlacedItem lotA 10 oid1 "ord1" 0)
          10 oid1 "ord1" 0).reservedQuantity = 20 := by
  decide

/-- Claim C9 (code_bug): cancelling 30 units when only 10 are reserved clamps
`reservedQuantity` to 0 as claimed, but the "adjustment/order_cancelled"
movement is never recorded: its save is rejected because the reason is not in
the movement reason enum and "system" is not a valid ObjectId. -/
theorem c9_cancelled_clamps_but_records_no_movement :
    handleOrderCancelledItem
        { lotA with reservedQuantity := 10, availableQuantity := 90 }
        30 "ord1" 0 = lotA
      ∧ (handleOrderCancelledItem
          { lotA with reservedQuantity := 10, availableQuantity := 90 }
          30 "ord1" 0).stockMovements = []
      ∧ movementReasonEnum.contains "order_cancelled" = false
      ∧ isValidObjectId "system" = false := by
  decide

/-- Claim C10 (confirmed): every order-lifecycle movement call fails schema
validation — the reasons "order_reservation", "order_confirmed" and
"order_cancelled" are outside the movement reason enum, and the cancelled
handler passes the non-ObjectId string "system" — so no order handler ever
persists a stock movement: the persisted movement list is unchanged by all
three handlers. -/
theorem c10_order_movement_saves_always_rejected :
    (∀ (l : Lot) (qty : Int) (userId : String) (reference : Option String)
        (notes : String) (now : Int),
        addStockMovement l "out" qty "order_reservation" userId reference
          notes now = none)
      ∧ (∀ (l : Lot) (qty : Int) (userId : String) (reference : Option String)
          (notes : String) (now : Int),
          addStockMovement l "out" qty "order_confirmed" userId reference
            notes now = none)
      ∧ (∀ (l : Lot) (qty : Int) (reference : Option String) (notes : String)
          (now : Int),
          addStockMovement l "adjustment" qty "order_cancelled" "system"
            reference notes now = none)
      ∧ isValidObjectId "system" = false
      ∧ (∀ (l : Lot) (qty : Int) (userId orderId : String) (now : Int),
          (handleOrderPlacedItem l qty userId orderId now).stockMovements
            = l.stockMovements)
      ∧ (∀ (l : Lot) (qty : Int) (userId orderId : String) (now : Int),
          (handleOrderConfirmedItem l qty userId orderId now).stockMovements
            = l.stockMovements)
      ∧ (∀ (l : Lot) (qty : Int) (orderId : String) (now : Int),
          (handleOrderCancelledItem l qty orderId now).stockMovements
            = l.stockMovements) := by
  refine ⟨?_, ?_, ?_, by decide, ?_, ?_, ?_⟩
  · intro l qty userId reference notes now
    exact addStockMovement_none_of_bad_reason (by decide)
  · intro l qty userId reference notes now
    exact addStockMovement_none_of_bad_reason (by decide)
  · intro l qty reference notes now
    exact addStockMovement_none_of_bad_reason (by decide)
  · intro l qty userId orderId now
    exact handleOrderPlacedItem_stockMovements l qty userId orderId now
  · intro l qty userId orderId now
    exact handleOrderConfirmedItem_stockMovements l qty userId orderId now
  · intro l qty orderId now
    exact handleOrderCancelledItem_stockMovements l qty orderId now

/-- Claim C6 (corrected), counterexample: a "return" movement of 5 on a lot
with quantity 10 saves with quantity still 10, not 15 — `addStockMovement`
has no branch for "return"; and an "out" movement that brings quantity to
exactly 0 fails even though it would not go negative, because the derived
status "out-of-stock" is not in the schema status enum. -/
theorem c6_return_and_out_to_zero_counterexample :
    (addStockMovement
        { lotA with
          quantity := 10, availableQuantity := 10,
          alerts := { lowStockThreshold := 2, expiryAlertDays := 30 } }
        "return" 5 "purchase" oid1 none "" 0).map (fun x => x.quantity)
      = some 10
      ∧ addStockMovement { lotA with quantity := 5, availableQuantity := 5 }
          "out" 5 "sale" oid1 none "" 0 = none := by
  decide

/-- Claim C6 (corrected, amended): for a well-formed non-expired lot and a
movement with a valid reason and actor and quantity at least 1, "in" adds the
given quantity; "out" subtracts it, and the save is rejected with the lot
unchanged both when the subtraction would go negative and when it lands on
exactly 0 (the derived "out-of-stock" status is outside the status enum);
"adjustment" sets quantity to exactly the given value, 0 being likewise
rejected; "return" leaves the on-hand quantity unchanged. -/
theorem c6_apply_movement_effects_amended (l : Lot) (qty : Int)
    (reason performedBy : String) (reference : Option String) (notes : String)
    (now : Int) (hwf : wfLot l)
    (hr : movementReasonEnum.contains reason = true)
    (hp : isValidObjectId performedBy = true)
    (hq : 1 ≤ qty) (hx : isExpired l now = false) :
    ((addStockMovement l "in" qty reason performedBy reference notes now).map
        (fun x => x.quantity) = some (l.quantity + qty))
      ∧ (l.quantity < qty →
          addStockMovement l "out" qty reason performedBy reference notes now
            = none)
      ∧ (l.quantity = qty →
          addStockMovement l "out" qty reason performedBy reference notes now
            = none)
      ∧ (qty < l.quantity →
          (addStockMovement l "out" qty reason performedBy reference notes
            now).map (fun x => x.quantity) = some (l.quantity - qty))
      ∧ ((addStockMovement l "adjustment" qty reason performedBy reference
          notes now).map (fun x => x.quantity) = some qty)
      ∧ (addStockMovement l "adjustment" 0 reason performedBy reference notes
          now = none)
      ∧ (1 ≤ l.quantity →
          (addStockMovement l "return" qty reason performedBy reference notes
            now).map (fun x => x.quantity) = some l.quantity) := by
  have hq0 := (wfLot_nonneg hwf).1
  refine ⟨?_, ?_, ?_, ?_, ?_, ?_, ?_⟩
  · have h := addStockMovement_success l "in" qty reason performedBy reference
      notes now hwf (by decide) hr hp (by rw [movedQty_in]; omega)
      (Or.inl (by rw [movedQty_in]; omega))
    rwa [movedQty_in] at h
  · intro hlt
    exact addStockMovement_fail_neg l "out" qty reason performedBy reference
      notes now (by rw [movedQty_out]; omega)
  · intro heq
    exact addStockMovement_fail_zero l "out" qty reason performedBy reference
      notes now (by rw [movedQty_out]; omega) hx
  · intro hlt
    have h := addStockMovement_success l "out" qty reason performedBy reference
      notes now hwf (by decide) hr hp (by rw [movedQty_out]; omega)
      (Or.inl (by rw [movedQty_out]; omega))
    rwa [movedQty_out] at h
  · have h := addStockMovement_success l "adjustment" qty reason performedBy
      reference notes now hwf (by decide) hr hp
      (by rw [movedQty_adjustment]; omega)
      (Or.inl (by rw [movedQty_adjustment]; omega))
    rwa [movedQty_adjustment] at h
  · exact addStockMovement_fail_zero l "adjustment" 0 reason performedBy
      reference notes now (by rw [movedQty_adjustment]) hx
  · intro h1
    have h := addStockMovement_success l "return" qty reason performedBy
      reference notes now hwf (by decide) hr hp
      (by rw [movedQty_return]; omega)
      (Or.inl (by rw [movedQty_return]; omega))
    rwa [movedQty_return] at h

/-- Witness for the amended theorem of C6 at the Scenario A lot with a "sale"
movement of 5 units. -/
theorem c6_apply_movement_effects_amended_witness :
    wfLot lotA ∧ movementReasonEnum.contains "sale" = true
      ∧ isValidObjectId oid1 = true ∧ (1 : Int) ≤ 5
      ∧ isExpired lotA 0 = false
      ∧ (addStockMovement lotA "in" 5 "sale" oid1 none "" 0).map
          (fun x => x.quantity) = some (lotA.quantity + 5) :=
  ⟨by decide, by decide, by decide, by decide, by decide,
    (c6_apply_movement_effects_amended lotA 5 "sale" oid1 none "" 0
      (by decide) (by decide) (by decide) (by decide) (by decide)).1⟩

/-- Claim C7 (corrected), counterexample: the unique index is on
(shopId, medicineId) only, so creating a lot with a fresh batchNumber "B2"
for a shop-medicine pair that already holds batch "B1" does not succeed — it
fails with a duplicate-key error, contradicting the claim. -/
theorem c7_fresh_batch_same_pair_rejected :
    createZodValid
        { shopId := 1, medicineId := 2, batchNumber := "B2", quantity := 50,
          manufacturingDate := 0, expiryDate := 1000, lowStockThreshold := 10,
          expiryAlertDays := 30 } = true
      ∧ addInventoryItem [lotA]
          { shopId := 1, medicineId := 2, batchNumber := "B2", quantity := 50,
            manufacturingDate := 0, expiryDate := 1000,
            lowStockThreshold := 10, expiryAlertDays := 30 } oid1 0
        = CreateResult.duplicateKey := by
  decide

/-- Claim C7 (corrected, amended): uniqueness is enforced per
(shopId, medicineId) pair, which implies the triple identifies at most one
lot and creation preserves both; creation fails with the explicit 400
conflict when the triple exists, and fails with a duplicate-key error — not
success — when the pair exists under a different batchNumber. -/
theorem c7_uniqueness_amended (db : List Lot) (i : CreateInput) (cb : String)
    (now : Int) (hzod : createZodValid i = true)
    (hcb : isValidObjectId cb = true) (hu : pairUnique db) :
    tripleUnique db
      ∧ (∀ (db2 : List Lot) (lot : Lot),
          addInventoryItem db i cb now = .created db2 lot →
          pairUnique db2 ∧ tripleUnique db2)
      ∧ ((∃ l ∈ db, l.shopId = i.shopId ∧ l.medicineId = i.medicineId
            ∧ l.batchNumber = i.batchNumber) →
          addInventoryItem db i cb now = .conflictBatch)
      ∧ ((∃ l ∈ db, l.shopId = i.shopId ∧ l.medicineId = i.medicineId) →
          (∀ l ∈ db, ¬(l.shopId = i.shopId ∧ l.medicineId = i.medicineId
            ∧ l.batchNumber = i.batchNumber)) →
          addInventoryItem db i cb now = .duplicateKey) := by
  refine ⟨pairUnique_tripleUnique hu, ?_, ?_, ?_⟩
  · intro db2 lot hc
    obtain ⟨rfl, _, hsid, hmid, hpair⟩ := addInventoryItem_created_inv hc
    have hnp : ∀ l ∈ db, ¬(l.shopId = lot.shopId ∧ l.medicineId = lot.medicineId) := by
      intro a ha hcontra
      apply List.any_eq_false.mp hpair a ha
      simp only [Bool.and_eq_true, beq_iff_eq]
      exact ⟨hcontra.1.trans hsid, hcontra.2.trans hmid⟩
    have h2 := pairUnique_append hu hnp
    exact ⟨h2, pairUnique_tripleUnique h2⟩
  · intro hex
    exact addInventoryItem_conflictBatch hzod hex
  · intro hp ht
    exact addInventoryItem_duplicateKey hzod hcb hp ht

/-- Witness for the amended theorem of C7 on a one-lot database and a fresh
shop-medicine pair. -/
theorem c7_uniqueness_amended_witness :
    createZodValid
        { shopId := 7, medicineId := 8, batchNumber := "B7", quantity := 3,
          manufacturingDate := 0, expiryDate := 1000, lowStockThreshold := 10,
          expiryAlertDays := 30 } = true
      ∧ isValidObjectId oid1 = true ∧ pairUnique [lotA]
      ∧ tripleUnique [lotA] :=
  ⟨by decide, by decide, by decide,
    (c7_uniqueness_amended [lotA]
      { shopId := 7, medicineId := 8, batchNumber := "B7", quantity := 3,
        manufacturingDate := 0, expiryDate := 1000, lowStockThreshold := 10,
        expiryAlertDays := 30 } oid1 0 (by decide) (by decide) (by decide)).1⟩

/-- Claim C8 (corrected), counterexample: creating a lot with quantity 0
succeeds but its status is the schema default "active", not "out-of-stock"
(a value the status enum does not even contain), and no initial-stock
movement is recorded. -/
theorem c8_zero_quantity_lot_status_active :
    addInventoryItem []
        { shopId := 1, medicineId := 2, batchNumber := "B1", quantity := 0,
          manufacturingDate := 0, expiryDate := 1000, lowStockThreshold := 10,
          expiryAlertDays := 30 } oid1 0
      = CreateResult.created
          [{ lotA with quantity := 0, availableQuantity := 0 }]
          { lotA with quantity := 0, availableQuantity := 0 }
      ∧ ({ lotA with quantity := 0, availableQuantity := 0 } : Lot).status
          = "active"
      ∧ ({ lotA with quantity := 0, availableQuantity := 0 } : Lot).stockMovements = []
      ∧ statusEnum.contains "out-of-stock" = false := by
  decide

/-- Claim C8 (corrected, amended): creation succeeds with
`reservedQuantity = 0` and `availableQuantity = quantity` (set by the
pre-save hook), but no synthetic initial-stock movement is recorded and no
status is derived: the status is the schema default "active" whatever the
quantity, including quantity 0. -/
theorem c8_create_amended (db : List Lot) (i : CreateInput) (cb : String)
    (now : Int) (hzod : createZodValid i = true)
    (hcb : isValidObjectId cb = true)
    (hnp : ∀ l ∈ db, ¬(l.shopId = i.shopId ∧ l.medicineId = i.medicineId)) :
    addInventoryItem db i cb now
        = .created (db ++ [preSave (newLotDoc i cb now)])
            (preSave (newLotDoc i cb now))
      ∧ (preSave (newLotDoc i cb now)).reservedQuantity = 0
      ∧ (preSave (newLotDoc i cb now)).availableQuantity = i.quantity
      ∧ (preSave (newLotDoc i cb now)).stockMovements = []
      ∧ (preSave (newLotDoc i cb now)).status = "active" := by
  refine ⟨addInventoryItem_created hzod hcb hnp, rfl, ?_, rfl, rfl⟩
  show max 0 (i.quantity - 0) = i.quantity
  have h := (createZodValid_fields hzod).2.2.1
  rw [sub_zero]
  exact max_eq_right h

/-- Witness for the amended theorem of C8: a fresh quantity-0 lot in an empty
database. -/
theorem c8_create_amended_witness :
    createZodValid
        { shopId := 1, medicineId := 2, batchNumber := "B1", quantity := 0,
          manufacturingDate := 0, expiryDate := 1000, lowStockThreshold := 10,
          expiryAlertDays := 30 } = true
      ∧ isValidObjectId oid1 = true
      ∧ (preSave (newLotDoc
          { shopId := 1, medicineId := 2, batchNumber := "B1", quantity := 0,
            manufacturingDate := 0, expiryDate := 1000, lowStockThreshold := 10,
            expiryAlertDays := 30 } oid1 0)).status = "active" :=
  ⟨by decide, by decide,
    (c8_create_amended []
      { shopId := 1, medicineId := 2, batchNumber := "B1", quantity := 0,
        manufacturingDate := 0, expiryDate := 1000, lowStockThreshold := 10,
        expiryAlertDays := 30 } oid1 0 (by decide) (by decide)
      (by intro l hl; cases hl)).2.2.2.2⟩

end MedInv
